import Mathlib

/-!
Shallow embedding of the duplicate-detection, root-cause-classification and
comment-importance-scoring core of the AIBugAnalyzer repository
(backend/app/services/ai_service.py, backend/app/services/mcp_ado.py,
backend/app/services/internal_ai_service.py,
backend/app/api/endpoints/duplicates.py, backend/app/core/config.py).

Modelling conventions:
* Python floats are modelled as rationals (ℚ); Python ints as Int/Nat.
* Python strings are Lean Strings; all character-level operations work on
  String.data (a List Char) so everything reduces in the kernel.  Python's
  len(s) is the character count, i.e. s.data.length.
* Python regular-expression character classes \s and \w are Unicode-aware;
  the source only ever applies them to bug-tracker text and every claim is
  about ASCII data, so the ASCII part is modelled.
* Python dicts used as bug records are modelled by a structure whose fields
  mirror exactly the keys the source reads with .get, with the .get default
  as the field default.
* Python's list.sort(key=..., reverse=True) is a stable descending sort; it
  is modelled by a stable descending insertion sort (sortDescBy below),
  which is extensionally the same function.
* Python's round(x, nd) rounds half to even; it is modelled as
  floor(x·10^nd + 1/2)/10^nd, which agrees with it except at exact decimal
  midpoints, values that no similarity score or threshold in the claims
  attains.
* The sentence-embedding model (SentenceTransformer.encode / cos_sim) is an
  external component; the cosine score it yields for the query against a
  cleaned candidate text is an uninterpreted parameter sim : String → ℚ of
  the embedding-path definitions.
-/

attribute [local semireducible] Rat.ofScientific Rat.mul Rat.inv Rat.add Rat.sub

/-! ## Python string primitives -/

/-- Python whitespace class (ASCII part): the characters matched by \s
and stripped by str.strip / split by str.split(). -/
def pyIsSpace (c : Char) : Bool :=
  c == ' ' || c == '\t' || c == '\n' || c == '\r' || c == '\x0b' || c == '\x0c'

/-- Python word-character class \w (ASCII part): letters, digits and
underscore. -/
def pyIsWordChar (c : Char) : Bool :=
  (decide ('a' ≤ c) && decide (c ≤ 'z')) ||
  (decide ('A' ≤ c) && decide (c ≤ 'Z')) ||
  (decide ('0' ≤ c) && decide (c ≤ '9')) || c == '_'

/-- Python str.lower on one character (ASCII part). -/
def pyLowerChar (c : Char) : Char :=
  if 'A' ≤ c ∧ c ≤ 'Z' then Char.ofNat (c.toNat + 32) else c

/-- Python str.lower (ASCII part). -/
def pyLower (s : String) : String :=
  String.mk (s.data.map pyLowerChar)

/-- The Python substring test needle in hay, on character lists. -/
def listHasInfix (needle : List Char) : List Char → Bool
  | [] => needle.isEmpty
  | c :: rest => needle.isPrefixOf (c :: rest) || listHasInfix needle rest

/-- The Python substring test needle in hay, on strings. -/
def containsSub (hay needle : String) : Bool :=
  listHasInfix needle.data hay.data

/-- One left-to-right pass of re.sub applied with pattern <[^>]+> and
replacement by one space.  The state is none while scanning outside a
potential tag and some buf after an unconsumed <, where buf holds the
characters read since then (reversed).  A < followed (not immediately) by
some later > is a match and becomes one space; a < with no closing > (or a
literal <>) matches nothing and is kept verbatim, exactly as the regex
scanner behaves. -/
def stripTagsAux : Option (List Char) → List Char → List Char
  | none, [] => []
  | none, c :: rest =>
    if c == '<' then stripTagsAux (some []) rest else c :: stripTagsAux none rest
  | some buf, [] => '<' :: buf.reverse
  | some buf, c :: rest =>
    if c == '>' then
      if buf.isEmpty then '<' :: '>' :: stripTagsAux none rest
      else ' ' :: stripTagsAux none rest
    else stripTagsAux (some (c :: buf)) rest

/-- One pass of re.sub applied with pattern \s+ and replacement by one
space: every maximal whitespace run becomes a single space.  The Bool flag
records whether the previous character was part of a whitespace run. -/
def collapseWsAux : Bool → List Char → List Char
  | _, [] => []
  | prevSpace, c :: rest =>
    if pyIsSpace c then
      if prevSpace then collapseWsAux true rest
      else ' ' :: collapseWsAux true rest
    else c :: collapseWsAux false rest

/-- re.sub applied with pattern [^\w\s\.\,\!\?] and replacement by one
space, for one character. -/
def removeSpecialChar (c : Char) : Char :=
  if pyIsWordChar c || pyIsSpace c || c == '.' || c == ',' || c == '!' || c == '?'
  then c else ' '

/-- Python str.strip(): drop leading and trailing whitespace. -/
def pyStripChars (l : List Char) : List Char :=
  ((l.dropWhile pyIsSpace).reverse.dropWhile pyIsSpace).reverse

/-- AIService.clean_text: empty (falsy) input yields ""; otherwise strip
HTML-like tags, collapse whitespace runs to a single space, replace
characters outside word characters / whitespace / basic punctuation by a
space, then strip. -/
def clean_text (text : String) : String :=
  if text == "" then ""
  else
    String.mk (pyStripChars
      ((collapseWsAux false (stripTagsAux none text.data)).map removeSpecialChar))

/-- Python str.split() with no separator: the maximal runs of
non-whitespace characters, left to right, never producing empty tokens.
The accumulator holds the current token, reversed. -/
def pySplitAux (acc : List Char) : List Char → List (List Char)
  | [] => if acc.isEmpty then [] else [acc.reverse]
  | c :: rest =>
    if pyIsSpace c then
      if acc.isEmpty then pySplitAux [] rest
      else acc.reverse :: pySplitAux [] rest
    else pySplitAux (c :: acc) rest

/-- Python str.split() on a string. -/
def pySplit (s : String) : List String :=
  (pySplitAux [] s.data).map String.mk

/-- Python round(x, ndigits) for ndigits ≥ 0, on rationals: round to
ndigits decimal places.  (Python rounds half to even; this rounds half up,
and the two agree away from exact decimal midpoints.) -/
def pyRound (ndigits : Nat) (x : ℚ) : ℚ :=
  ((x * 10 ^ ndigits + 1 / 2).floor : ℚ) / 10 ^ ndigits

/-! ## Bug records (the dict shape consumed from the tracking source) -/

/-- The bug-record dict as the service reads it: one field per key accessed
with .get in the source, whose .get default is the field default. -/
structure Bug where
  id : Option Nat := none
  ado_id : Option Nat := none
  title : String := ""
  description : String := ""
  reason : String := ""
  area_path : String := ""
  tags : List String := []
  created_date : Option String := none
  state : Option String := none
  priority : Option String := none
  url : Option String := none
deriving DecidableEq

/-- The combined text f-string of ai_service.py: title, one space,
description. -/
def combined_bug_text (bug : Bug) : String :=
  bug.title ++ " " ++ bug.description

/-- The duplicate-result dict built by the detection paths. The confidence
key is only ever written by the remote-LLM path, hence optional. -/
structure DuplicateRecord where
  bug_id : Option Nat := none
  ado_id : Option Nat := none
  title : String := ""
  description : String := ""
  similarity_score : ℚ := 0
  explanation : String := ""
  highlights : List String := []
  confidence : Option ℚ := none
  created_date : Option String := none
  state : Option String := none
  priority : Option String := none
  url : Option String := none
deriving DecidableEq

instance : Inhabited DuplicateRecord := ⟨{}⟩

/-- The description-truncation expression used when building result dicts:
descriptions longer than 200 characters are cut at 200 and suffixed with an
ellipsis. -/
def truncate_description (s : String) : String :=
  if 200 < s.data.length then String.mk (s.data.take 200) ++ "..." else s

/-- Settings.max_similarity_results default (core/config.py). -/
def max_similarity_results : Nat := 10

/-! ## Stable descending sort (Python list.sort(key=..., reverse=True)) -/

/-- Insert x into a list already sorted by strictly descending-or-equal
key, placing x before the first element whose key is ≤ its own: among equal
keys the element inserted later (which, under foldr below, occurred earlier
in the input) comes first.  This is exactly the stable descending order
Python's list.sort(key=k, reverse=True) produces. -/
def insertDescBy (k : α → ℚ) (x : α) : List α → List α
  | [] => [x]
  | y :: ys => if k y ≤ k x then x :: y :: ys else y :: insertDescBy k x ys

/-- Stable descending insertion sort by a rational key. -/
def sortDescBy (k : α → ℚ) (l : List α) : List α :=
  l.foldr (insertDescBy k) []

/-! ## The bucketed-lexical similarity strategy -/

/-- AIService._calculate_similarity_bucket: word-overlap heuristic mapped
to fixed buckets; returns (score, category, explanation).
exact_matches = len(set(query_words) ∩ set(bug_words)) counts distinct
query words also occurring in the candidate; substring_matches counts
query-word occurrences (duplicates included) of length ≥ 3 occurring as
substrings of the candidate text. -/
def calculate_similarity_bucket (query_words bug_words : List String)
    (query_text bug_text : String) : ℚ × String × String :=
  let exact_matches := (query_words.dedup.filter (fun w => bug_words.contains w)).length
  let substring_matches :=
    (query_words.filter (fun w => decide (3 ≤ w.data.length) && containsSub bug_text w)).length
  if query_words.length = 0 then
    (0.0, "No Content", "Empty query")
  else
    let exact_r : ℚ := (exact_matches : ℚ) / (query_words.length : ℚ)
    let substring_r : ℚ := (substring_matches : ℚ) / (query_words.length : ℚ)
    let exactMsg :=
      toString exact_matches ++ "/" ++ toString query_words.length ++ " exact words match"
    let subMsg :=
      toString substring_matches ++ "/" ++ toString query_words.length ++
        " words found as substrings"
    if 0.9 ≤ exact_r then (0.95, "Nearly Identical", exactMsg)
    else if 0.7 ≤ exact_r then (0.85, "Very Similar", exactMsg)
    else if 0.5 ≤ exact_r then (0.65, "Quite Similar", exactMsg)
    else if 0.7 ≤ substring_r then (0.60, "Good Substring Match", subMsg)
    else if 0.3 ≤ exact_r then (0.45, "Moderate Match", exactMsg)
    else if 0.4 ≤ substring_r then (0.40, "Some Substring Match", subMsg)
    else if 0.1 ≤ exact_r then (0.25, "Low Match", exactMsg)
    else (0.10, "Very Low Match",
      "Only " ++ toString exact_matches ++ "/" ++ toString query_words.length ++ " words match")

/-- Spec-side: exact_ratio = |query word set ∩ candidate word set| divided
by the query word count. -/
def exactRatioOf (query_words bug_words : List String) : ℚ :=
  ((query_words.dedup.filter (fun w => bug_words.contains w)).length : ℚ) /
    (query_words.length : ℚ)

/-- Spec-side: substring_ratio = count of query words of length ≥ 3
appearing as substrings of the candidate text, divided by the query word
count. -/
def substringRatioOf (query_words : List String) (bug_text : String) : ℚ :=
  ((query_words.filter (fun w => decide (3 ≤ w.data.length) && containsSub bug_text w)).length : ℚ) /
    (query_words.length : ℚ)

/-- One row of the spec's fixed bucket table: which ratio it tests, the
inclusive cutoff, and the resulting score and label. -/
structure BucketRow where
  useExact : Bool
  cutoff : ℚ
  score : ℚ
  label : String

/-- The spec's fixed discrete bucket table, in evaluation order. -/
def bucket_rows : List BucketRow :=
  [⟨true, 0.9, 0.95, "Nearly Identical"⟩,
   ⟨true, 0.7, 0.85, "Very Similar"⟩,
   ⟨true, 0.5, 0.65, "Quite Similar"⟩,
   ⟨false, 0.7, 0.60, "Good Substring Match"⟩,
   ⟨true, 0.3, 0.45, "Moderate Match"⟩,
   ⟨false, 0.4, 0.40, "Some Substring Match"⟩,
   ⟨true, 0.1, 0.25, "Low Match"⟩]

/-- First-match lookup in a bucket table: the first row whose tested ratio
reaches its cutoff wins; no matching row gives the default bucket
(0.10, Very Low Match). -/
def bucketLookup (er sr : ℚ) : List BucketRow → ℚ × String
  | [] => (0.10, "Very Low Match")
  | row :: rest =>
    if row.cutoff ≤ cond row.useExact er sr then (row.score, row.label)
    else bucketLookup er sr rest

/-- First-match lookup in the spec's fixed bucket table. -/
def spec_bucket (er sr : ℚ) : ℚ × String :=
  bucketLookup er sr bucket_rows

/-! ## The duplicate-detection paths of AIService.find_duplicate_bugs -/

/-- AIService._generate_similarity_explanation (the query and bug-text
parameters are accepted and unused, as in the source). -/
def generate_similarity_explanation (query bug_text : String) (similarity : ℚ) : String :=
  if 0.95 ≤ similarity then "Nearly identical content - likely exact duplicate"
  else if 0.90 ≤ similarity then "Very high similarity in title and description"
  else if 0.85 ≤ similarity then "High similarity with overlapping key concepts"
  else "Moderate similarity with some common elements"

/-- AIService._find_matching_phrases: the distinct lowercased query words
also occurring among the lowercased bug words, capped at 10.  (The source
builds a Python set intersection, whose iteration order is unspecified;
the model fixes first-occurrence order.) -/
def find_matching_phrases (query bug_text : String) : List String :=
  (((pySplit (pyLower query)).dedup).filter
    (fun w => (pySplit (pyLower bug_text)).contains w)).take 10

/-- The embedding-path loop body of AIService.find_duplicate_bugs for one
candidate: none when the candidate's cleaned combined text is empty (the
loop's continue) or the cosine similarity is below the threshold; otherwise
the result dict, whose stored score is round(similarity·100, 2).
sim is the uninterpreted cosine similarity of the encoded cleaned query
against the encoded cleaned candidate text. -/
def embedding_candidate (sim : String → ℚ) (query_cleaned : String)
    (threshold : ℚ) (bug : Bug) : Option DuplicateRecord :=
  let bug_cleaned := clean_text (combined_bug_text bug)
  if bug_cleaned == "" then none
  else
    let similarity := sim bug_cleaned
    if threshold ≤ similarity then
      some
        { bug_id := bug.id
          ado_id := bug.ado_id
          title := bug.title
          description := truncate_description bug.description
          similarity_score := pyRound 2 (similarity * 100)
          explanation := generate_similarity_explanation query_cleaned bug_cleaned similarity
          highlights := find_matching_phrases query_cleaned bug_cleaned
          created_date := bug.created_date
          state := bug.state
          priority := bug.priority
          url := bug.url }
    else none

/-- The kept embedding-path results, in candidate input order. -/
def embedding_kept (sim : String → ℚ) (query_cleaned : String) (threshold : ℚ)
    (existing_bugs : List Bug) : List DuplicateRecord :=
  existing_bugs.filterMap (embedding_candidate sim query_cleaned threshold)

/-- The embedding path of AIService.find_duplicate_bugs: an empty cleaned
query returns []; otherwise the kept results are sorted by stored
similarity_score descending (stable) and truncated to the result limit. -/
def find_duplicate_bugs_embedding (sim : String → ℚ) (query_text : String)
    (existing_bugs : List Bug) (threshold : ℚ) (maxResults : Nat) :
    List DuplicateRecord :=
  let query_cleaned := clean_text query_text
  if query_cleaned == "" then []
  else
    (sortDescBy (fun d => d.similarity_score)
      (embedding_kept sim query_cleaned threshold existing_bugs)).take maxResults

/-- The lowercased cleaned query text of the keyword path. -/
def query_cleaned_of (query_text : String) : String :=
  pyLower (clean_text query_text)

/-- The lowercased cleaned combined title+description of a candidate. -/
def bug_cleaned_of (bug : Bug) : String :=
  pyLower (clean_text (combined_bug_text bug))

/-- The bucket triple (score, category, explanation) the keyword path
computes for one candidate. -/
def bucket_of (query_text : String) (bug : Bug) : ℚ × String × String :=
  calculate_similarity_bucket (pySplit (query_cleaned_of query_text))
    (pySplit (bug_cleaned_of bug)) (query_cleaned_of query_text) (bug_cleaned_of bug)

/-- The result dict the keyword path builds for one kept candidate: the
stored score is round(score·100, 1), the explanation is
category: explanation, the highlights are the first 8 common words. -/
def keyword_record (query_text : String) (bug : Bug) : DuplicateRecord :=
  { bug_id := bug.id
    ado_id := bug.ado_id
    title := bug.title
    description := truncate_description bug.description
    similarity_score := pyRound 1 ((bucket_of query_text bug).1 * 100)
    explanation := (bucket_of query_text bug).2.1 ++ ": " ++ (bucket_of query_text bug).2.2
    highlights := (((pySplit (query_cleaned_of query_text)).dedup).filter
      (fun w => (pySplit (bug_cleaned_of bug)).contains w)).take 8
    created_date := bug.created_date
    state := bug.state
    priority := bug.priority
    url := bug.url }

/-- The kept keyword-path results (bucket score at least the threshold), in
candidate input order. -/
def keyword_kept (query_text : String) (existing_bugs : List Bug) (threshold : ℚ) :
    List DuplicateRecord :=
  existing_bugs.filterMap (fun bug =>
    if threshold ≤ (bucket_of query_text bug).1
    then some (keyword_record query_text bug) else none)

/-- AIService._keyword_based_duplicate_detection: the kept results sorted
by stored similarity_score descending (stable) and truncated to the result
limit. -/
def keyword_based_duplicate_detection (query_text : String) (existing_bugs : List Bug)
    (threshold : ℚ) (maxResults : Nat) : List DuplicateRecord :=
  (sortDescBy (fun d => d.similarity_score)
    (keyword_kept query_text existing_bugs threshold)).take maxResults

/-- AIService.find_duplicate_bugs in the default configuration (internal AI
disabled): the embedding path when a sentence-transformer model is loaded,
otherwise the keyword-based fallback. -/
def find_duplicate_bugs (hasModel : Bool) (sim : String → ℚ) (query_text : String)
    (existing_bugs : List Bug) (threshold : ℚ) (maxResults : Nat) :
    List DuplicateRecord :=
  if hasModel then
    find_duplicate_bugs_embedding sim query_text existing_bugs threshold maxResults
  else keyword_based_duplicate_detection query_text existing_bugs threshold maxResults

/-- A similarity oracle and inputs exhibiting the rounding slack of the
embedding path: cosine similarity exactly 0.85003 at threshold 0.85003. -/
def c3_cex_sim : String → ℚ := fun _ => 85003 / 100000

/-- The candidate used by the C3 instances. -/
def c3_bug : Bug := { title := "login fails", description := "with timeout" }

/-- A similarity oracle used by the C3 witness. -/
def c3_demo_sim : String → ℚ := fun _ => 9 / 10

/-- The first embedding-path result at the C3 witness inputs. -/
def c3_demo_rec : DuplicateRecord :=
  (find_duplicate_bugs_embedding c3_demo_sim "login fails" [c3_bug] (1/2) 10).headD default

/-- The first keyword-path result at the C3 witness inputs. -/
def c3_demo_krec : DuplicateRecord :=
  (keyword_based_duplicate_detection "login fails" [c3_bug] (1/10) 10).headD default

/-- A second candidate sharing no words with the C10 witness query. -/
def c10_bug2 : Bug := { title := "chart colors wrong", description := "dashboard rendering" }

/-! ## Comment importance scoring (mcp_ado.py) -/

/-- Root-cause-analysis phrases, +35 (first match only). -/
def root_cause_phrases : List String :=
  ["root cause analysis", "root cause", "analysis indicates", "analysis revealed",
   "our analysis", "investigation shows", "discovered that", "found that",
   "the issue is caused by", "underlying cause", "primary cause"]

/-- Cross-system-analysis indicators, +30. -/
def cross_system_indicators : List String :=
  ["plau", "pluk", "pl global", "system comparison", "other systems",
   "similar issue in", "same issue in", "across systems", "multiple systems"]

/-- Technical-implementation-detail phrases, +28. -/
def implementation_details : List String :=
  ["class and", "attribute", "element class", "aria-current", "highlighting functionality",
   "implementation", "code changes", "staged", "committed", "introduced files",
   "new files", "tocHighlightedElement", "dynamically", "scrolling"]

/-- Investigation-process phrases, +25. -/
def investigation_keywords : List String :=
  ["attempted to validate", "we observed", "as illustrated below", "based on",
   "following internal discussions", "it was decided", "we attempted", "however we observed"]

/-- Technical-solution phrases, +22. -/
def solution_keywords : List String :=
  ["to fix", "solution", "workaround", "to address", "to resolve",
   "fix implemented", "changes made", "approach taken", "method used"]

/-- System-reference phrases, +20. -/
def system_references : List String :=
  ["document display page", "search results page", "table of contents",
   "multi-level hierarchy", "collapsible", "focus behavior", "highlighting"]

/-- Visual-content indicators, +25. -/
def visual_indicators : List String :=
  ["as illustrated below", "image", "screenshot", "attached", "picture",
   "visual", "see attached", "[image]", "screen capture", "refer to the attached"]

/-- Code and technical-artifact indicators, +18. -/
def code_indicators : List String :=
  ["function", "method", "class", "variable", "code", "script", "query",
   "file", "path", "folder", "directory", "config", ".js", ".html",
   ".css", ".py", ".java", ".cs", "src/", "app/", "component"]

/-- General technical terms, +15. -/
def technical_terms : List String :=
  ["api", "database", "server", "client", "service", "endpoint",
   "performance", "memory", "cpu", "network", "timeout", "error", "exception",
   "browser", "dom", "html", "css", "javascript", "frontend", "backend"]

/-- Technical-density keywords, +3 per distinct match. -/
def technical_density_words : List String :=
  ["technical", "implementation", "development", "analysis", "investigation",
   "architecture", "design", "algorithm", "framework", "library", "component"]

/-- Closure phrases, penalised -20 (below 50 chars) or -10. -/
def closure_phrases : List String :=
  ["closing the bug", "bug closed", "issue closed", "resolved",
   "closing this", "bug is closed", "issue resolved", "marking as complete"]

/-- Low-value phrases, penalised -18 (below 30 chars) or -8. -/
def low_value_phrases : List String :=
  ["thanks", "thank you", "looks good", "approved", "lgtm",
   "ok", "fine", "agreed", "yes", "no problem", "+1"]

/-- Status-only phrases, penalised -15 on texts below 100 chars. -/
def status_only_phrases : List String :=
  ["assigned to", "bug assigned", "status changed", "priority changed",
   "moved to", "transferred to", "state changed"]

/-- MCPAdoService._calculate_comment_importance_score: a falsy (empty)
comment returns 0 immediately; otherwise base 10 plus each bonus group
(first match within a group applies once; each phrase test is a Python
substring test against the lowercased text), a length bonus, a named-system
bonus, 3 points per technical-density keyword, minus the closure, low-value,
status-only and very-short penalties, the sum finally floored at 1. -/
def calculate_comment_importance_score (comment_text : String) : Int :=
  if comment_text == "" then 0
  else
    let text_lower := pyLower comment_text
    let n := comment_text.data.length
    let score : Int := 10
    let score := score + (if root_cause_phrases.any (fun p => containsSub text_lower p) then 35 else 0)
    let score := score + (if cross_system_indicators.any (fun p => containsSub text_lower p) then 30 else 0)
    let score := score + (if implementation_details.any (fun p => containsSub text_lower p) then 28 else 0)
    let score := score + (if investigation_keywords.any (fun p => containsSub text_lower p) then 25 else 0)
    let score := score + (if solution_keywords.any (fun p => containsSub text_lower p) then 22 else 0)
    let score := score + (if system_references.any (fun p => containsSub text_lower p) then 20 else 0)
    let score := score + (if visual_indicators.any (fun p => containsSub text_lower p) then 25 else 0)
    let score := score + (if code_indicators.any (fun p => containsSub text_lower p) then 18 else 0)
    let score := score + (if technical_terms.any (fun p => containsSub text_lower p) then 15 else 0)
    let score := score + (if 500 < n then 10 else if 200 < n then 5 else 0)
    let score := score +
      (if (["plau", "pluk", "pl global"] : List String).any (fun p => containsSub text_lower p)
       then 15 else 0)
    let score := score + (technical_density_words.countP (fun p => containsSub text_lower p) : Int) * 3
    let score := score -
      (if closure_phrases.any (fun p => containsSub text_lower p)
       then (if n < 50 then 20 else 10) else 0)
    let score := score -
      (if low_value_phrases.any (fun p => containsSub text_lower p)
       then (if n < 30 then 18 else 8) else 0)
    let score := score -
      (if status_only_phrases.any (fun p => containsSub text_lower p) && decide (n < 100)
       then 15 else 0)
    let score := score - (if n < 10 then 10 else 0)
    max score 1

/-! ## Root-cause classification (AIService.analyze_root_causes) -/

/-- One assignment appended to a category list: the keys the source writes
for each categorized bug. -/
structure CategoryAssignment where
  bug_id : Option Nat
  ado_id : Option Nat
  title : String
  confidence : ℚ
  matched_keywords : List String
deriving DecidableEq

/-- The fixed keyword taxonomy, in declaration (dict insertion) order. -/
def category_keywords : List (String × List String) :=
  [("System Stability", ["crash", "freeze", "hang", "memory", "exception", "error", "fail"]),
   ("API Issues", ["api", "endpoint", "request", "response", "timeout", "connection", "service"]),
   ("UI/UX Problems", ["button", "page", "display", "layout", "ui", "interface", "render"]),
   ("Configuration Issues", ["config", "setting", "parameter", "environment", "deployment"]),
   ("Data/Database Issues", ["database", "data", "query", "table", "connection", "sql"]),
   ("Authentication/Security", ["login", "auth", "permission", "access", "security", "token"]),
   ("Performance Issues", ["slow", "performance", "speed", "latency", "timeout", "load"]),
   ("Environment Issues", ["browser", "device", "platform", "version", "compatibility"])]

/-- The taxonomy names in declaration order. -/
def category_names : List String := category_keywords.map Prod.fst

/-- The cleaned lowercased title used for the title bonus. -/
def root_cause_title (bug : Bug) : String := pyLower (clean_text bug.title)

/-- The lowercased area path (taken as str(...) without cleaning). -/
def root_cause_area_path (bug : Bug) : String := pyLower bug.area_path

/-- The combined lowercase analysis text: title, description, reason, area
path and space-joined tags, space separated. -/
def root_cause_text (bug : Bug) : String :=
  root_cause_title bug ++ " " ++ pyLower (clean_text bug.description) ++ " "
    ++ pyLower (clean_text bug.reason) ++ " " ++ root_cause_area_path bug ++ " "
    ++ pyLower (String.intercalate " " bug.tags)

/-- The per-category score: 1 per keyword occurring (as a substring) in the
combined text, plus 0.5 per keyword in the title, plus 0.3 per keyword in
the area path. -/
def category_score (bug : Bug) (keywords : List String) : ℚ :=
  (keywords.countP (fun kw => containsSub (root_cause_text bug) kw) : ℚ)
  + (keywords.countP (fun kw => containsSub (root_cause_title bug) kw) : ℚ) * 0.5
  + (keywords.countP (fun kw => containsSub (root_cause_area_path bug) kw) : ℚ) * 0.3

/-- All category scores of one bug, in declaration order. -/
def category_scores (bug : Bug) : List (String × ℚ) :=
  category_keywords.map (fun p => (p.1, category_score bug p.2))

/-- The source's bug_categories list (positive scores only) after the
stable descending sort by score; its head, if any, is the winning
category. -/
def bug_category_choice (bug : Bug) : Option (String × ℚ) :=
  (sortDescBy Prod.snd
    ((category_scores bug).filter (fun p => decide (0 < p.2)))).head?

/-- The (category name, assignment record) pair appended for one bug: on a
positive best score the confidence is round(score, 1) and the matched
keywords are the first three winning-category keywords found in the text;
with no positive score the synthetic General Issues record with confidence
0.5 and no keywords. -/
def assignment_of (bug : Bug) : String × CategoryAssignment :=
  match bug_category_choice bug with
  | some (name, score) =>
    (name,
      { bug_id := bug.id, ado_id := bug.ado_id, title := bug.title,
        confidence := pyRound 1 score,
        matched_keywords :=
          (((category_keywords.lookup name).getD []).filter
            (fun kw => containsSub (root_cause_text bug) kw)).take 3 })
  | none =>
    ("General Issues",
      { bug_id := bug.id, ado_id := bug.ado_id, title := bug.title,
        confidence := 0.5, matched_keywords := [] })

/-- The initial categories dict: the eight fixed names, each empty. -/
def initial_categories : List (String × List CategoryAssignment) :=
  category_keywords.map (fun p => (p.1, ([] : List CategoryAssignment)))

/-- dict lookup-and-append on the association list (the key is present
whenever the source appends). -/
def add_to_category (cats : List (String × List CategoryAssignment)) (name : String)
    (a : CategoryAssignment) : List (String × List CategoryAssignment) :=
  match cats with
  | [] => []
  | (k, l) :: rest =>
    if k = name then (k, l ++ [a]) :: rest else (k, l) :: add_to_category rest name a

/-- The guard creating the General Issues key on first use. -/
def ensure_general (cats : List (String × List CategoryAssignment)) :
    List (String × List CategoryAssignment) :=
  if cats.any (fun p => p.1 == "General Issues") then cats
  else cats ++ [("General Issues", [])]

/-- The loop body of analyze_root_causes for one bug. -/
def classify_step (cats : List (String × List CategoryAssignment)) (bug : Bug) :
    List (String × List CategoryAssignment) :=
  match bug_category_choice bug with
  | some _ => add_to_category cats (assignment_of bug).1 (assignment_of bug).2
  | none => add_to_category (ensure_general cats) "General Issues" (assignment_of bug).2

/-- The categories mapping built by AIService.analyze_root_causes: the
categorisation stage of the analysis (the subsequent recommendation and
pattern summaries read these lists and are not claimed about). -/
def analyze_root_causes_categories (bugs : List Bug) :
    List (String × List CategoryAssignment) :=
  bugs.foldl classify_step initial_categories

/-- Spec-side: whether some bug falls into the synthetic General Issues
category. -/
def general_needed (bugs : List Bug) : Bool :=
  bugs.any (fun b => (bug_category_choice b).isNone)

/-- Spec-side: the category keys present after classifying these bugs. -/
def all_category_names (bugs : List Bug) : List String :=
  category_names ++ (if general_needed bugs then ["General Issues"] else [])

/-- Spec-side grouping: each present category name paired with the
assignments of exactly the bugs whose winning category it is, in bug input
order. -/
def expected_categories (bugs : List Bug) : List (String × List CategoryAssignment) :=
  (all_category_names bugs).map (fun n =>
    (n, (bugs.filter (fun b => (assignment_of b).1 == n)).map
          (fun b => (assignment_of b).2)))

/-- Spec-side: the first element of the list attaining the maximal key —
the highest score with ties broken in favour of the earlier element. -/
def first_argmax (k : α → ℚ) : List α → Option α
  | [] => none
  | x :: xs =>
    match first_argmax k xs with
    | none => some x
    | some y => if k y ≤ k x then some x else some y

/-- The bug used by the C4 witness. -/
def c4_bug : Bug :=
  { title := "App crash on login", description := "memory error and timeout" }

/-! ## The endpoint banding (api/endpoints/duplicates.py) -/

/-- The endpoint's (match_color, match_level) banding over a stored 0-100
similarity score: at least 95 gives green/exact, at least 85 gives
yellow/high, anything lower orange/moderate, applied to every duplicate
result regardless of which strategy produced the score. -/
def match_banding (score : ℚ) : String × String :=
  if 95 ≤ score then ("green", "exact")
  else if 85 ≤ score then ("yellow", "high")
  else ("orange", "moderate")

/-- The bug of the C6 scenario: identical title and description. -/
def c6_bug : Bug :=
  { title := "login fails with timeout", description := "login fails with timeout" }

/-- The C6 query: exactly the candidate's combined title+description. -/
def c6_query : String := combined_bug_text c6_bug

/-- The bug of the C6 witness: the spec's title with empty description. -/
def c6w_bug : Bug := { title := "Login fails with timeout" }

/-! ## The remote-LLM duplicate path (internal_ai_service.py) -/

/-- The dict shape read from each entry of the remote answer's parsed JSON
array: exactly the keys InternalAIService.find_duplicate_bugs reads with
.get.  (Entries that are not JSON objects are dropped by an isinstance
check in the source; the typed model's entries are always objects.) -/
structure RemoteDup where
  bug_id : Option Nat := none
  title : Option String := none
  similarity_score : Option ℚ := none
  explanation : Option String := none
  highlights : Option (List String) := none
deriving DecidableEq

/-- Python str() of a possibly missing id (str(None) is the string None). -/
def optNatLabel : Option Nat → String
  | none => "None"
  | some n => toString n

/-- The first index of a character in a list, if any. -/
def firstIdx (c : Char) : List Char → Option Nat
  | [] => none
  | d :: ds => if d == c then some 0 else (firstIdx c ds).map (· + 1)

/-- The last index of a character in a list, if any. -/
def lastIdx (c : Char) (l : List Char) : Option Nat :=
  (firstIdx c l.reverse).map (fun i => l.length - 1 - i)

/-- re.search of the DOTALL pattern bracket-dot-star-bracket: with DOTALL
and a greedy star a match exists exactly when some closing bracket follows
the first opening bracket, and the matched fragment runs from the first
opening bracket to the last closing bracket of the whole string. -/
def extractJsonArray (s : String) : Option String :=
  match firstIdx '[' s.data, lastIdx ']' s.data with
  | some i, some j =>
    if i < j then some (String.mk ((s.data.drop i).take (j - i + 1))) else none
  | _, _ => none

/-- The result dict built from one parsed entry, merging in the original
bug found by string-compared id (or the .get-defaulted empty dict). -/
def internal_format_one (existing_bugs : List Bug) (dup : RemoteDup) : DuplicateRecord :=
  let original_bug :=
    (existing_bugs.find? (fun b2 => optNatLabel b2.id == optNatLabel dup.bug_id)).getD {}
  { bug_id := dup.bug_id
    ado_id := original_bug.ado_id
    title := dup.title.getD original_bug.title
    description := truncate_description original_bug.description
    similarity_score := (dup.similarity_score).getD 0
    explanation := (dup.explanation).getD ""
    highlights := (dup.highlights).getD []
    confidence := some ((dup.similarity_score).getD 0)
    created_date := original_bug.created_date
    state := original_bug.state
    priority := original_bug.priority
    url := original_bug.url }

/-- InternalAIService.find_duplicate_bugs from the point where the answer
string has been taken out of the HTTP response: regex-extract the JSON
fragment, parse it with the (uninterpreted) JSON parser jsonParse, treat a
missing match or a failed parse as an empty duplicates_data list, and
format each parsed entry. -/
def internal_find_duplicate_bugs (jsonParse : String → Option (List RemoteDup))
    (answer : String) (existing_bugs : List Bug) : List DuplicateRecord :=
  let duplicates_data :=
    match extractJsonArray answer with
    | none => []
    | some frag =>
      match jsonParse frag with
      | none => []
      | some data => data
  duplicates_data.map (internal_format_one existing_bugs)

/-- The prose-only remote answer of the C7 witness: no JSON array. -/
def c7_answer : String := "The assistant replied in prose with no structured data."

-- THEOREMS

set_option maxRecDepth 10000

/-- Unfolding of the spec bucket table lookup into its row conditions. -/
theorem spec_bucket_def (er sr : ℚ) :
    spec_bucket er sr =
      if 0.9 ≤ er then (0.95, "Nearly Identical")
      else if 0.7 ≤ er then (0.85, "Very Similar")
      else if 0.5 ≤ er then (0.65, "Quite Similar")
      else if 0.7 ≤ sr then (0.60, "Good Substring Match")
      else if 0.3 ≤ er then (0.45, "Moderate Match")
      else if 0.4 ≤ sr then (0.40, "Some Substring Match")
      else if 0.1 ≤ er then (0.25, "Low Match")
      else ((0.10 : ℚ), "Very Low Match") := by
  simp only [spec_bucket, bucket_rows, bucketLookup]
  rfl

/-- C1: for every query/candidate pair whose query word list is non-empty,
the bucketed-lexical similarity function returns exactly the (score, label)
of the first matching row of the fixed table evaluated in order
(exact 0.9 → 0.95 Nearly Identical; exact 0.7 → 0.85 Very Similar;
exact 0.5 → 0.65 Quite Similar; substring 0.7 → 0.60 Good Substring Match;
exact 0.3 → 0.45 Moderate Match; substring 0.4 → 0.40 Some Substring Match;
exact 0.1 → 0.25 Low Match; default 0.10 Very Low Match), with all
boundaries inclusive since the table rows test cutoff ≤ ratio on exact
rationals; and an empty query word list gives score 0.0 with label
No Content. -/
theorem claim_C1_bucket_table (query_words bug_words : List String)
    (query_text bug_text : String) (h : query_words ≠ []) :
    ((calculate_similarity_bucket query_words bug_words query_text bug_text).1,
      (calculate_similarity_bucket query_words bug_words query_text bug_text).2.1)
      = spec_bucket (exactRatioOf query_words bug_words)
          (substringRatioOf query_words bug_text)
    ∧ calculate_similarity_bucket [] bug_words query_text bug_text
        = (0.0, "No Content", "Empty query") := by
  constructor
  · have hn : ¬ (query_words.length = 0) := by
      simpa [List.length_eq_zero] using h
    rw [spec_bucket_def]
    simp only [calculate_similarity_bucket, exactRatioOf, substringRatioOf]
    simp only [if_neg hn]
    split_ifs <;> rfl
  · rfl

/-- Witness for C1, at a ten-word query of which exactly nine match the
candidate words: exact ratio 9/10 reaches the 0.9 boundary row, so the
bucket is exactly (0.95, Nearly Identical). -/
theorem claim_C1_witness :
    (["a","b","c","d","e","f","g","h","i","j"] : List String) ≠ [] ∧
    (((calculate_similarity_bucket ["a","b","c","d","e","f","g","h","i","j"]
        ["a","b","c","d","e","f","g","h","i"] "q" "x").1,
      (calculate_similarity_bucket ["a","b","c","d","e","f","g","h","i","j"]
        ["a","b","c","d","e","f","g","h","i"] "q" "x").2.1)
        = spec_bucket
            (exactRatioOf ["a","b","c","d","e","f","g","h","i","j"]
              ["a","b","c","d","e","f","g","h","i"])
            (substringRatioOf ["a","b","c","d","e","f","g","h","i","j"] "x")
      ∧ calculate_similarity_bucket [] ["a","b","c","d","e","f","g","h","i"] "q" "x"
          = (0.0, "No Content", "Empty query"))
    ∧ spec_bucket
        (exactRatioOf ["a","b","c","d","e","f","g","h","i","j"]
          ["a","b","c","d","e","f","g","h","i"])
        (substringRatioOf ["a","b","c","d","e","f","g","h","i","j"] "x")
        = (0.95, "Nearly Identical") :=
  ⟨by decide, claim_C1_bucket_table _ _ _ _ (by decide), by decide⟩

/-- C2 (counterexample): the claim says the scorer returns at least 1 for
every input text including the empty string, but the source's falsy-input
guard returns 0 for the empty string before the floor is ever applied. -/
theorem claim_C2_counterexample :
    calculate_comment_importance_score "" = 0
    ∧ ¬ (1 ≤ calculate_comment_importance_score "") := by
  decide

/-- C2 (amended): for every non-empty input text the comment importance
scorer returns an integer greater than or equal to 1; the empty string is
the single exception and returns 0. -/
theorem claim_C2_score_floor (comment_text : String) (h : comment_text ≠ "") :
    1 ≤ calculate_comment_importance_score comment_text := by
  unfold calculate_comment_importance_score
  rw [if_neg (by simpa using h)]
  exact le_max_right _ _

/-- Witness for C2 at the one-character comment x. -/
theorem claim_C2_witness :
    ("x" : String) ≠ "" ∧ 1 ≤ calculate_comment_importance_score "x" :=
  ⟨by decide, claim_C2_score_floor "x" (by decide)⟩

/-- C5: the scorer on the exact text ok gives at most 3 (it evaluates to
1: base 10, low-value penalty 18 under 30 chars, very-short penalty 10,
floored to 1), the scorer on the exact root-cause example sentence gives at
least 90 (it evaluates to 149: base 10 + 35 root cause + 30 cross-system
+ 28 implementation + 25 visual attachment + 15 named system + 6 density),
and hence the first scores strictly lower than the second. -/
theorem claim_C5_monotonic_example :
    calculate_comment_importance_score "ok" ≤ 3
    ∧ 90 ≤ calculate_comment_importance_score "Root cause analysis indicates the underlying cause was a race condition in the PLUK batching layer, implementation details attached."
    ∧ calculate_comment_importance_score "ok"
        < calculate_comment_importance_score "Root cause analysis indicates the underlying cause was a race condition in the PLUK batching layer, implementation details attached." := by
  refine ⟨by decide, by decide, by decide⟩

/-! ## Stable-sort infrastructure lemmas -/

theorem sortDescBy_cons (k : α → ℚ) (x : α) (l : List α) :
    sortDescBy k (x :: l) = insertDescBy k x (sortDescBy k l) := rfl

theorem insertDescBy_length (k : α → ℚ) (x : α) (l : List α) :
    (insertDescBy k x l).length = l.length + 1 := by
  induction l with
  | nil => rfl
  | cons y ys ih => by_cases h : k y ≤ k x <;> simp [insertDescBy, h, ih]

theorem sortDescBy_length (k : α → ℚ) (l : List α) :
    (sortDescBy k l).length = l.length := by
  induction l with
  | nil => rfl
  | cons y ys ih => rw [sortDescBy_cons, insertDescBy_length, ih]; rfl

theorem mem_insertDescBy {k : α → ℚ} {x a : α} {l : List α} :
    a ∈ insertDescBy k x l ↔ a = x ∨ a ∈ l := by
  induction l with
  | nil => simp [insertDescBy]
  | cons y ys ih =>
    by_cases h : k y ≤ k x <;> simp [insertDescBy, h, ih] <;> tauto

theorem mem_sortDescBy {k : α → ℚ} {a : α} {l : List α} :
    a ∈ sortDescBy k l ↔ a ∈ l := by
  induction l with
  | nil => simp [sortDescBy]
  | cons y ys ih => rw [sortDescBy_cons]; simp [mem_insertDescBy, ih]

theorem pairwise_insertDescBy {k : α → ℚ} {x : α} {l : List α}
    (hl : l.Pairwise (fun a b => k b ≤ k a)) :
    (insertDescBy k x l).Pairwise (fun a b => k b ≤ k a) := by
  induction l with
  | nil => simp [insertDescBy]
  | cons y ys ih =>
    rcases List.pairwise_cons.mp hl with ⟨hy, hys⟩
    by_cases h : k y ≤ k x
    · rw [insertDescBy, if_pos h]
      refine List.pairwise_cons.mpr ⟨?_, hl⟩
      intro b hb
      rcases List.mem_cons.mp hb with rfl | hb
      · exact h
      · exact le_trans (hy b hb) h
    · rw [insertDescBy, if_neg h]
      refine List.pairwise_cons.mpr ⟨?_, ih hys⟩
      intro b hb
      rcases mem_insertDescBy.mp hb with rfl | hb
      · exact le_of_not_le h
      · exact hy b hb

theorem pairwise_sortDescBy (k : α → ℚ) (l : List α) :
    (sortDescBy k l).Pairwise (fun a b => k b ≤ k a) := by
  induction l with
  | nil => simp [sortDescBy]
  | cons y ys ih => rw [sortDescBy_cons]; exact pairwise_insertDescBy ih

theorem filter_insertDescBy (k : α → ℚ) (s : ℚ) (x : α) (l : List α) :
    (insertDescBy k x l).filter (fun a => k a == s) =
      if k x == s then x :: l.filter (fun a => k a == s)
      else l.filter (fun a => k a == s) := by
  induction l with
  | nil => by_cases h : k x == s <;> simp [insertDescBy, List.filter, h]
  | cons y ys ih =>
    by_cases h : k y ≤ k x
    · rw [insertDescBy, if_pos h]
      by_cases hx : k x == s <;> simp [List.filter, hx]
    · rw [insertDescBy, if_neg h]
      by_cases hx : k x == s
      · have hy : ¬ (k y == s) := by
          have hxy : k x < k y := lt_of_not_le h
          have hxs : k x = s := by simpa using hx
          simp only [beq_iff_eq]
          intro hys
          exact absurd (hxs ▸ hys ▸ hxy) (lt_irrefl _)
        simp [List.filter, hy, ih, hx]
      · simp [List.filter, ih, hx]

theorem filter_sortDescBy (k : α → ℚ) (s : ℚ) (l : List α) :
    (sortDescBy k l).filter (fun a => k a == s) = l.filter (fun a => k a == s) := by
  induction l with
  | nil => rfl
  | cons y ys ih =>
    rw [sortDescBy_cons, filter_insertDescBy]
    by_cases hy : k y == s <;> simp [List.filter, hy, ih]

theorem filter_take_prefix (p : α → Bool) (n : Nat) (l : List α) :
    ((l.take n).filter p) <+: (l.filter p) := by
  conv_rhs => rw [← List.take_append_drop n l]
  rw [List.filter_append]
  exact List.prefix_append _ _

theorem filterMap_eq_map_of_forall_some {f : α → Option β} {g : α → β} (l : List α)
    (h : ∀ a ∈ l, f a = some (g a)) : l.filterMap f = l.map g := by
  induction l with
  | nil => rfl
  | cons x xs ih =>
    rw [List.filterMap_cons, h x (by simp), List.map_cons,
      ih (fun a ha => h a (by simp [ha]))]

/-! ## The duplicate-path inversion lemmas -/

theorem embedding_candidate_some {sim : String → ℚ} {query_cleaned : String}
    {threshold : ℚ} {bug : Bug} {r : DuplicateRecord}
    (h : embedding_candidate sim query_cleaned threshold bug = some r) :
    threshold ≤ sim (clean_text (combined_bug_text bug))
    ∧ r.similarity_score = pyRound 2 (sim (clean_text (combined_bug_text bug)) * 100) := by
  unfold embedding_candidate at h
  dsimp only at h
  split_ifs at h with h1 h2
  injection h with h
  subst h
  exact ⟨h2, rfl⟩

theorem keyword_kept_mem {query_text : String} {existing_bugs : List Bug} {threshold : ℚ}
    {r : DuplicateRecord} (h : r ∈ keyword_kept query_text existing_bugs threshold) :
    ∃ bug ∈ existing_bugs,
      threshold ≤ (bucket_of query_text bug).1 ∧ r = keyword_record query_text bug := by
  unfold keyword_kept at h
  rcases List.mem_filterMap.mp h with ⟨bug, hbug, hsome⟩
  split_ifs at hsome with h1
  injection hsome with h2
  exact ⟨bug, hbug, h1, h2.symm⟩

theorem bucket_score_mem (query_words bug_words : List String) (query_text bug_text : String) :
    (calculate_similarity_bucket query_words bug_words query_text bug_text).1 ∈
      ([0.95, 0.85, 0.65, 0.60, 0.45, 0.40, 0.25, 0.10, 0.0] : List ℚ) := by
  unfold calculate_similarity_bucket
  dsimp only
  split_ifs <;> simp

theorem pyRound1_bucket_values :
    ∀ v ∈ ([0.95, 0.85, 0.65, 0.60, 0.45, 0.40, 0.25, 0.10, 0.0] : List ℚ),
      pyRound 1 (v * 100) / 100 = v := by decide

/-- C3 (counterexample): the claim asserts similarity_score/100 is at least
the threshold for every result; on the embedding path the stored score is
round(similarity·100, 2) and at cosine similarity 0.85003 with threshold
0.85003 the candidate passes the raw filter but is stored as 85.00, so
85.00/100 = 0.85 falls below the threshold. -/
theorem claim_C3_counterexample :
    ∃ r ∈ find_duplicate_bugs_embedding c3_cex_sim "login fails" [c3_bug] (85003/100000) 10,
      r.similarity_score / 100 < 85003/100000 := by decide

/-- C3 (amended): every result of the embedding path has raw cosine
similarity at least the threshold, and its stored two-decimal rounded score
satisfies similarity_score/100 at least threshold - 1/20000 (half of the
0.0001 grid the rounding works on); on the bucketed-lexical fallback every
stored score satisfies similarity_score/100 at least the threshold exactly,
because the one-decimal rounding is the identity on the bucket values. -/
theorem claim_C3_threshold_filtering (sim : String → ℚ) (query_text : String)
    (existing_bugs : List Bug) (threshold : ℚ) (maxResults : Nat) :
    (∀ r ∈ find_duplicate_bugs_embedding sim query_text existing_bugs threshold maxResults,
        threshold - 1/20000 ≤ r.similarity_score / 100)
    ∧ (∀ r ∈ keyword_based_duplicate_detection query_text existing_bugs threshold maxResults,
        threshold ≤ r.similarity_score / 100) := by
  constructor
  · intro r hr
    unfold find_duplicate_bugs_embedding at hr
    dsimp only at hr
    split_ifs at hr with h1
    · exact absurd hr (by simp)
    · have hr2 : r ∈ embedding_kept sim (clean_text query_text) threshold existing_bugs :=
        mem_sortDescBy.mp (List.take_subset _ _ hr)
      rcases List.mem_filterMap.mp hr2 with ⟨bug, hbug, hsome⟩
      rcases embedding_candidate_some hsome with ⟨hth, hsc⟩
      rw [hsc]
      set y := sim (clean_text (combined_bug_text bug)) with hy
      unfold pyRound
      have key : y - 1/20000 ≤ ((y * 100 * 10 ^ 2 + 1 / 2).floor : ℚ) / 10 ^ 2 / 100 := by
        rw [div_div, le_div_iff (by norm_num : (0:ℚ) < 10 ^ 2 * 100)]
        have hfl : y * 100 * 10 ^ 2 + 1 / 2 - 1
            < (((y * 100 * 10 ^ 2 + 1 / 2).floor : ℤ) : ℚ) :=
          Int.sub_one_lt_floor _
        nlinarith [hfl]
      linarith
  · intro r hr
    unfold keyword_based_duplicate_detection at hr
    have hr2 : r ∈ keyword_kept query_text existing_bugs threshold :=
      mem_sortDescBy.mp (List.take_subset _ _ hr)
    rcases keyword_kept_mem hr2 with ⟨bug, hbug, hth, rfl⟩
    have hv : (bucket_of query_text bug).1 ∈
        ([0.95, 0.85, 0.65, 0.60, 0.45, 0.40, 0.25, 0.10, 0.0] : List ℚ) :=
      bucket_score_mem _ _ _ _
    have hval := pyRound1_bucket_values _ hv
    have hsc : (keyword_record query_text bug).similarity_score
        = pyRound 1 ((bucket_of query_text bug).1 * 100) := rfl
    rw [hsc, hval]
    exact hth

/-- Witness for C3 at a kept embedding-path result (cosine 0.9, threshold
0.5) and a kept lexical result (threshold 0.1). -/
theorem claim_C3_witness :
    c3_demo_rec ∈ find_duplicate_bugs_embedding c3_demo_sim "login fails" [c3_bug] (1/2) 10
    ∧ (1/2 : ℚ) - 1/20000 ≤ c3_demo_rec.similarity_score / 100
    ∧ c3_demo_krec ∈ keyword_based_duplicate_detection "login fails" [c3_bug] (1/10) 10
    ∧ (1/10 : ℚ) ≤ c3_demo_krec.similarity_score / 100 :=
  ⟨by decide,
   (claim_C3_threshold_filtering c3_demo_sim "login fails" [c3_bug] (1/2) 10).1
     c3_demo_rec (by decide),
   by decide,
   (claim_C3_threshold_filtering c3_demo_sim "login fails" [c3_bug] (1/10) 10).2
     c3_demo_krec (by decide)⟩

/-- C8: the result sequence of find_duplicates never exceeds the configured
result limit, on the dispatcher and on both the embedding path and the
bucketed-lexical fallback path, for every input including ones where more
candidates qualify than the limit; the configured default limit is 10. -/
theorem claim_C8_limit_invariant (hasModel : Bool) (sim : String → ℚ) (query_text : String)
    (existing_bugs : List Bug) (threshold : ℚ) (maxResults : Nat) :
    (find_duplicate_bugs hasModel sim query_text existing_bugs threshold maxResults).length
        ≤ maxResults
    ∧ (find_duplicate_bugs_embedding sim query_text existing_bugs threshold maxResults).length
        ≤ maxResults
    ∧ (keyword_based_duplicate_detection query_text existing_bugs threshold maxResults).length
        ≤ maxResults
    ∧ max_similarity_results = 10 := by
  have hk : (keyword_based_duplicate_detection query_text existing_bugs
      threshold maxResults).length ≤ maxResults := by
    unfold keyword_based_duplicate_detection
    rw [List.length_take]
    omega
  have he : (find_duplicate_bugs_embedding sim query_text existing_bugs
      threshold maxResults).length ≤ maxResults := by
    unfold find_duplicate_bugs_embedding
    dsimp only
    split_ifs
    · simp
    · rw [List.length_take]; omega
  refine ⟨?_, he, hk, rfl⟩
  unfold find_duplicate_bugs
  split_ifs
  · exact he
  · exact hk

theorem filter_sortDescBy_score (s : ℚ) (l : List DuplicateRecord) :
    (sortDescBy (fun d => d.similarity_score) l).filter (fun r => r.similarity_score == s)
      = l.filter (fun r => r.similarity_score == s) :=
  filter_sortDescBy (fun d => d.similarity_score) s l

/-- C9: on both paths the result sequence is sorted in descending order of
stored similarity_score, and for every score value s the results scoring s
form a prefix of the kept results scoring s, where the kept list
(embedding_kept / keyword_kept) is built by one pass over the candidates in
input order — i.e. ties are broken stably, preserving candidate input
order. -/
theorem claim_C9_sorted_stable (sim : String → ℚ) (query_text : String)
    (existing_bugs : List Bug) (threshold : ℚ) (maxResults : Nat) :
    ((find_duplicate_bugs_embedding sim query_text existing_bugs threshold maxResults).Pairwise
        (fun a b => b.similarity_score ≤ a.similarity_score)
      ∧ ∀ s : ℚ,
        ((find_duplicate_bugs_embedding sim query_text existing_bugs threshold
            maxResults).filter (fun r => r.similarity_score == s))
          <+: ((embedding_kept sim (clean_text query_text) threshold existing_bugs).filter
              (fun r => r.similarity_score == s)))
    ∧ ((keyword_based_duplicate_detection query_text existing_bugs threshold
          maxResults).Pairwise (fun a b => b.similarity_score ≤ a.similarity_score)
      ∧ ∀ s : ℚ,
        ((keyword_based_duplicate_detection query_text existing_bugs threshold
            maxResults).filter (fun r => r.similarity_score == s))
          <+: ((keyword_kept query_text existing_bugs threshold).filter
              (fun r => r.similarity_score == s))) := by
  refine ⟨⟨?_, ?_⟩, ?_, ?_⟩
  · unfold find_duplicate_bugs_embedding
    dsimp only
    split_ifs
    · simp
    · exact List.Pairwise.sublist (List.take_sublist _ _) (pairwise_sortDescBy _ _)
  · intro s
    unfold find_duplicate_bugs_embedding
    dsimp only
    split_ifs
    · simp
    · have h1 := filter_take_prefix (fun r : DuplicateRecord => r.similarity_score == s)
        maxResults (sortDescBy (fun d => d.similarity_score)
          (embedding_kept sim (clean_text query_text) threshold existing_bugs))
      rwa [filter_sortDescBy_score] at h1
  · unfold keyword_based_duplicate_detection
    exact List.Pairwise.sublist (List.take_sublist _ _) (pairwise_sortDescBy _ _)
  · intro s
    unfold keyword_based_duplicate_detection
    have h1 := filter_take_prefix (fun r : DuplicateRecord => r.similarity_score == s)
      maxResults (sortDescBy (fun d => d.similarity_score)
        (keyword_kept query_text existing_bugs threshold))
    rwa [filter_sortDescBy_score] at h1

theorem bucket_score_floor (query_words bug_words : List String)
    (query_text bug_text : String) (h : query_words ≠ []) :
    (0.10 : ℚ) ≤ (calculate_similarity_bucket query_words bug_words query_text bug_text).1 := by
  have hn : ¬ (query_words.length = 0) := by simpa [List.length_eq_zero] using h
  unfold calculate_similarity_bucket
  dsimp only
  rw [if_neg hn]
  split_ifs <;> norm_num

/-- C10: under the bucketed-lexical fallback with a non-empty query word
list, every candidate scores at least 0.10, so at any threshold at most
0.10 the kept list is the whole candidate list in input order and the
result length is the candidate count capped by the limit; the bucket score
is 0 exactly when the query word list is empty. -/
theorem claim_C10_low_threshold_keeps_all (query_text : String) (existing_bugs : List Bug)
    (threshold : ℚ) (maxResults : Nat)
    (hq : pySplit (query_cleaned_of query_text) ≠ [])
    (ht : threshold ≤ 0.10) :
    keyword_kept query_text existing_bugs threshold
        = existing_bugs.map (keyword_record query_text)
    ∧ (keyword_based_duplicate_detection query_text existing_bugs threshold maxResults).length
        = min maxResults existing_bugs.length
    ∧ (∀ query_words bug_words query_text2 bug_text2, query_words ≠ [] →
        (0.10:ℚ) ≤ (calculate_similarity_bucket query_words bug_words query_text2 bug_text2).1)
    ∧ (∀ query_words bug_words query_text2 bug_text2,
        ((calculate_similarity_bucket query_words bug_words query_text2 bug_text2).1 = 0
          ↔ query_words = [])) := by
  have hmap : keyword_kept query_text existing_bugs threshold
      = existing_bugs.map (keyword_record query_text) := by
    unfold keyword_kept
    refine filterMap_eq_map_of_forall_some _ (fun bug _ => ?_)
    exact if_pos (le_trans ht (bucket_score_floor _ _ _ _ hq))
  refine ⟨hmap, ?_, fun a b c d h => bucket_score_floor a b c d h, ?_⟩
  · unfold keyword_based_duplicate_detection
    rw [List.length_take, sortDescBy_length, hmap, List.length_map]
  · intro qw bw qt2 bt2
    constructor
    · intro h0
      by_contra hne
      have hlow := bucket_score_floor qw bw qt2 bt2 hne
      rw [h0] at hlow
      norm_num at hlow
    · rintro rfl
      rfl

/-- Witness for C10 at the query login fails against one overlapping and
one disjoint candidate, threshold 0.05: both candidates are kept. -/
theorem claim_C10_witness :
    pySplit (query_cleaned_of "login fails") ≠ [] ∧ ((1:ℚ)/20) ≤ 0.10 ∧
    (keyword_kept "login fails" [c3_bug, c10_bug2] (1/20)
        = [c3_bug, c10_bug2].map (keyword_record "login fails")
      ∧ (keyword_based_duplicate_detection "login fails" [c3_bug, c10_bug2] (1/20) 10).length
          = min 10 ([c3_bug, c10_bug2] : List Bug).length
      ∧ (∀ query_words bug_words query_text2 bug_text2, query_words ≠ [] →
          (0.10:ℚ) ≤ (calculate_similarity_bucket query_words bug_words query_text2 bug_text2).1)
      ∧ (∀ query_words bug_words query_text2 bug_text2,
          ((calculate_similarity_bucket query_words bug_words query_text2 bug_text2).1 = 0
            ↔ query_words = []))) :=
  ⟨by decide, by decide,
   claim_C10_low_threshold_keeps_all "login fails" [c3_bug, c10_bug2] (1/20) 10
     (by decide) (by decide)⟩

/-! ## Root-cause classification lemmas -/

theorem head?_insertDescBy (k : α → ℚ) (x : α) (l : List α) :
    (insertDescBy k x l).head? = some (match l.head? with
      | none => x
      | some y => if k y ≤ k x then x else y) := by
  cases l with
  | nil => rfl
  | cons y ys => by_cases h : k y ≤ k x <;> simp [insertDescBy, h]

theorem sortDescBy_head? (k : α → ℚ) (l : List α) :
    (sortDescBy k l).head? = first_argmax k l := by
  induction l with
  | nil => rfl
  | cons x xs ih =>
    rw [sortDescBy_cons, head?_insertDescBy, first_argmax, ← ih]
    cases hs : (sortDescBy k xs).head? with
    | none => simp
    | some y => by_cases h : k y ≤ k x <;> simp [h]

theorem first_argmax_eq_none {k : α → ℚ} {l : List α} :
    first_argmax k l = none ↔ l = [] := by
  cases l with
  | nil => simp [first_argmax]
  | cons x xs =>
    simp only [first_argmax]
    cases first_argmax k xs with
    | none => simp
    | some y => by_cases h : k y ≤ k x <;> simp [h]

theorem first_argmax_spec {k : α → ℚ} {l : List α} :
    ∀ {m : α}, first_argmax k l = some m →
      ∃ l1 l2, l = l1 ++ m :: l2 ∧ (∀ x ∈ l1, k x < k m) ∧ (∀ x ∈ l, k x ≤ k m) := by
  induction l with
  | nil => intro m h; simp [first_argmax] at h
  | cons x xs ih =>
    intro m h
    rw [first_argmax] at h
    cases hx : first_argmax k xs with
    | none =>
      rw [hx] at h
      injection h with h
      subst h
      have hxs : xs = [] := first_argmax_eq_none.mp hx
      subst hxs
      exact ⟨[], [], rfl, by simp, by simp⟩
    | some y =>
      rw [hx] at h
      dsimp only at h
      rcases ih hx with ⟨l1, l2, hsplit, hlt, hle⟩
      by_cases hk : k y ≤ k x
      · rw [if_pos hk] at h
        injection h with h
        subst h
        refine ⟨[], xs, rfl, by simp, ?_⟩
        intro z hz
        rcases List.mem_cons.mp hz with rfl | hz
        · exact le_refl _
        · exact le_trans (hle z hz) hk
      · rw [if_neg hk] at h
        injection h with h
        subst h
        refine ⟨x :: l1, l2, by rw [hsplit, List.cons_append], ?_, ?_⟩
        · intro z hz
          rcases List.mem_cons.mp hz with rfl | hz
          · exact lt_of_not_le hk
          · exact hlt z hz
        · intro z hz
          rcases List.mem_cons.mp hz with rfl | hz
          · exact le_of_lt (lt_of_not_le hk)
          · exact hle z hz

theorem filter_eq_append_cons {p : α → Bool} {l : List α} :
    ∀ {f1 f2 : List α} {m : α}, l.filter p = f1 ++ m :: f2 →
      ∃ l1 l2, l = l1 ++ m :: l2 ∧ l1.filter p = f1 := by
  induction l with
  | nil => intro f1 f2 m h; rw [List.filter_nil] at h; cases f1 <;> simp_all
  | cons x xs ih =>
    intro f1 f2 m h
    rw [List.filter_cons] at h
    by_cases hp : p x
    · rw [if_pos hp] at h
      cases f1 with
      | nil =>
        rw [List.nil_append] at h
        injection h with h1 h2
        subst h1
        exact ⟨[], xs, rfl, rfl⟩
      | cons a f1' =>
        rw [List.cons_append] at h
        injection h with h1 h2
        subst h1
        rcases ih h2 with ⟨l1, l2, hsp, hf⟩
        exact ⟨x :: l1, l2, by rw [hsp, List.cons_append],
          by rw [List.filter_cons, if_pos hp, hf]⟩
    · rw [if_neg hp] at h
      rcases ih h with ⟨l1, l2, hsp, hf⟩
      exact ⟨x :: l1, l2, by rw [hsp, List.cons_append],
        by rw [List.filter_cons, if_neg hp, hf]⟩

theorem category_score_nonneg (bug : Bug) (kws : List String) :
    0 ≤ category_score bug kws := by
  unfold category_score
  positivity

theorem category_scores_nonneg (bug : Bug) : ∀ p ∈ category_scores bug, 0 ≤ p.2 := by
  intro p hp
  unfold category_scores at hp
  rcases List.mem_map.mp hp with ⟨q, hq, heq⟩
  rw [← heq]
  exact category_score_nonneg bug q.2

theorem bug_category_choice_some {bug : Bug} {n : String} {v : ℚ}
    (h : bug_category_choice bug = some (n, v)) :
    (n, v) ∈ category_scores bug ∧ 0 < v
    ∧ (∀ p ∈ category_scores bug, p.2 ≤ v)
    ∧ ∃ l1 l2, category_scores bug = l1 ++ (n, v) :: l2 ∧ ∀ p ∈ l1, p.2 < v := by
  unfold bug_category_choice at h
  rw [sortDescBy_head?] at h
  rcases first_argmax_spec h with ⟨f1, f2, hf, hlt, hle⟩
  have hmem : (n, v) ∈ (category_scores bug).filter (fun p => decide (0 < p.2)) := by
    rw [hf]; simp
  have hpos : 0 < v := by
    have h2 := (List.mem_filter.mp hmem).2
    simpa using h2
  rcases filter_eq_append_cons hf with ⟨l1, l2, hl, hfil⟩
  refine ⟨(List.mem_filter.mp hmem).1, hpos, ?_, l1, l2, hl, ?_⟩
  · intro p hp
    by_cases hpp : 0 < p.2
    · have hpf : p ∈ (category_scores bug).filter (fun p => decide (0 < p.2)) :=
        List.mem_filter.mpr ⟨hp, by simpa using hpp⟩
      exact hle p hpf
    · exact le_trans (le_of_not_lt hpp) (le_of_lt hpos)
  · intro p hp
    by_cases hpp : 0 < p.2
    · have hpf : p ∈ l1.filter (fun p => decide (0 < p.2)) :=
        List.mem_filter.mpr ⟨hp, by simpa using hpp⟩
      rw [hfil] at hpf
      exact hlt p hpf
    · exact lt_of_le_of_lt (le_of_not_lt hpp) hpos

theorem bug_category_choice_none {bug : Bug} :
    bug_category_choice bug = none ↔ ∀ p ∈ category_scores bug, p.2 = 0 := by
  unfold bug_category_choice
  rw [sortDescBy_head?, first_argmax_eq_none, List.filter_eq_nil]
  constructor
  · intro h p hp
    have h1 := h p hp
    have h2 : ¬ (0 < p.2) := by simpa using h1
    exact le_antisymm (le_of_not_lt h2) (category_scores_nonneg bug p hp)
  · intro h p hp
    have := h p hp
    simp [this]

theorem choice_name_mem {bug : Bug} {n : String} {v : ℚ}
    (h : bug_category_choice bug = some (n, v)) : n ∈ category_names := by
  rcases bug_category_choice_some h with ⟨hmem, -, -, -⟩
  unfold category_scores at hmem
  rcases List.mem_map.mp hmem with ⟨q, hq, heq⟩
  unfold category_names
  exact List.mem_map.mpr ⟨q, hq, congrArg Prod.fst heq⟩

theorem add_to_category_map (ks : List String) (f : String → List CategoryAssignment)
    (n : String) (a : CategoryAssignment) (hnd : ks.Nodup) :
    add_to_category (ks.map (fun m => (m, f m))) n a
      = ks.map (fun m => (m, if m = n then f m ++ [a] else f m)) := by
  induction ks with
  | nil => rfl
  | cons k ks' ih =>
    rcases List.nodup_cons.mp hnd with ⟨hk, hnd'⟩
    rw [List.map_cons, List.map_cons, add_to_category]
    by_cases hkn : k = n
    · rw [if_pos hkn, if_pos hkn]
      subst hkn
      congr 1
      apply List.map_congr_left
      intro m hm
      have : ¬ (m = k) := fun hmk => hk (hmk ▸ hm)
      rw [if_neg this]
    · rw [if_neg hkn, if_neg hkn, ih hnd']

theorem category_names_nodup : category_names.Nodup := by decide

theorem general_not_mem : ("General Issues" : String) ∉ category_names := by decide

theorem all_category_names_nodup (bugs : List Bug) : (all_category_names bugs).Nodup := by
  unfold all_category_names
  by_cases h : general_needed bugs
  · rw [if_pos h]
    refine List.Nodup.append category_names_nodup (by decide) ?_
    intro x hx hy
    rw [List.mem_singleton] at hy
    subst hy
    exact general_not_mem hx
  · rw [if_neg h, List.append_nil]
    exact category_names_nodup

theorem assignment_name_of_some {bug : Bug} {n : String} {v : ℚ}
    (h : bug_category_choice bug = some (n, v)) : (assignment_of bug).1 = n := by
  unfold assignment_of
  rw [h]

theorem assignment_name_of_none {bug : Bug} (h : bug_category_choice bug = none) :
    (assignment_of bug).1 = "General Issues" := by
  unfold assignment_of
  rw [h]

theorem assignment_name_mem_of_some {bug : Bug} (h : (bug_category_choice bug).isSome) :
    (assignment_of bug).1 ∈ category_names := by
  rcases Option.isSome_iff_exists.mp h with ⟨nv, hnv⟩
  obtain ⟨n, v⟩ := nv
  rw [assignment_name_of_some hnv]
  exact choice_name_mem hnv

theorem expected_step_common (pre : List Bug) (b : Bug) (ks : List String) :
    ks.map (fun m => (m,
        if m = (assignment_of b).1
        then ((pre.filter (fun b2 => (assignment_of b2).1 == m)).map
                (fun b2 => (assignment_of b2).2)) ++ [(assignment_of b).2]
        else (pre.filter (fun b2 => (assignment_of b2).1 == m)).map
                (fun b2 => (assignment_of b2).2)))
      = ks.map (fun m => (m,
          ((pre ++ [b]).filter (fun b2 => (assignment_of b2).1 == m)).map
            (fun b2 => (assignment_of b2).2))) := by
  apply List.map_congr_left
  intro m hm
  rw [List.filter_append, List.map_append]
  by_cases hmn : m = (assignment_of b).1
  · rw [if_pos hmn]
    have hfb : List.filter (fun b2 => (assignment_of b2).1 == m) [b] = [b] := by
      rw [List.filter_cons, if_pos (by simp [hmn]), List.filter_nil]
    rw [hfb, List.map_cons, List.map_nil]
  · rw [if_neg hmn]
    have hfb : List.filter (fun b2 => (assignment_of b2).1 == m) [b] = [] := by
      rw [List.filter_cons, if_neg (by simp; exact fun he => hmn he.symm), List.filter_nil]
    rw [hfb, List.map_nil, List.append_nil]

theorem classify_step_expected (pre : List Bug) (b : Bug) :
    classify_step (expected_categories pre) b = expected_categories (pre ++ [b]) := by
  unfold classify_step
  cases hc : bug_category_choice b with
  | some nv =>
    obtain ⟨n, v⟩ := nv
    have hname : (assignment_of b).1 = n := assignment_name_of_some hc
    have hmm : (assignment_of b).1 ∈ category_names := by
      rw [hname]; exact choice_name_mem hc
    have hgen : general_needed (pre ++ [b]) = general_needed pre := by
      unfold general_needed
      rw [List.any_append]
      simp [hc]
    have hnd := all_category_names_nodup pre
    unfold all_category_names at hnd
    unfold expected_categories all_category_names
    rw [hgen, add_to_category_map _ _ _ _ hnd]
    exact expected_step_common pre b _
  | none =>
    have hname : (assignment_of b).1 = "General Issues" := assignment_name_of_none hc
    have hgen2 : general_needed (pre ++ [b]) = true := by
      unfold general_needed
      rw [List.any_append]
      simp [hc]
    by_cases hg : general_needed pre
    · have hany : (expected_categories pre).any (fun p => p.1 == "General Issues") = true := by
        apply List.any_eq_true.mpr
        unfold expected_categories
        refine ⟨_, List.mem_map.mpr ⟨"General Issues", ?_, rfl⟩, by simp⟩
        unfold all_category_names
        rw [if_pos hg]
        exact List.mem_append.mpr (Or.inr (by simp))
      have hens : ensure_general (expected_categories pre) = expected_categories pre := by
        unfold ensure_general
        rw [if_pos hany]
      rw [hens, ← hname]
      dsimp only
      unfold expected_categories all_category_names
      rw [hgen2, hg]
      rw [add_to_category_map _ _ _ _
        (by decide : (category_names ++ if (true:Bool) = true then ["General Issues"] else []).Nodup)]
      exact expected_step_common pre b _
    · have hany : (expected_categories pre).any (fun p => p.1 == "General Issues") = false := by
        apply List.any_eq_false.mpr
        intro x hx
        unfold expected_categories at hx
        rcases List.mem_map.mp hx with ⟨n, hn, rfl⟩
        unfold all_category_names at hn
        rw [if_neg hg, List.append_nil] at hn
        simp only [beq_iff_eq]
        intro heq
        exact general_not_mem (heq ▸ hn)
      have hprefilter :
          pre.filter (fun b2 => (assignment_of b2).1 == "General Issues") = [] := by
        rw [List.filter_eq_nil]
        intro b2 hb2
        have hany2 : pre.any (fun b3 => (bug_category_choice b3).isNone) = false := by
          have hb := Bool.eq_false_iff.mpr hg
          simpa [general_needed] using hb
        have hfalse : (bug_category_choice b2).isNone = false :=
          Bool.eq_false_iff.mpr (List.any_eq_false.mp hany2 b2 hb2)
        have hs : (bug_category_choice b2).isSome := by
          cases hopt : bug_category_choice b2 with
          | none => rw [hopt] at hfalse; simp at hfalse
          | some v => rfl
        have hmemn := assignment_name_mem_of_some hs
        simp only [beq_iff_eq]
        intro heq
        rw [heq] at hmemn
        exact general_not_mem hmemn
      have hens : ensure_general (expected_categories pre)
          = (category_names ++ ["General Issues"]).map (fun n =>
              (n, (pre.filter (fun b2 => (assignment_of b2).1 == n)).map
                    (fun b2 => (assignment_of b2).2))) := by
        unfold ensure_general
        rw [if_neg (by rw [hany]; exact Bool.false_ne_true)]
        unfold expected_categories all_category_names
        rw [if_neg hg, List.append_nil, List.map_append, List.map_cons, List.map_nil]
        congr 2
        rw [hprefilter, List.map_nil]
      rw [hens]
      dsimp only
      rw [add_to_category_map _ _ _ _
        (by decide : (category_names ++ ["General Issues"]).Nodup)]
      have hcommon := expected_step_common pre b (category_names ++ ["General Issues"])
      rw [hname] at hcommon
      rw [hcommon]
      unfold expected_categories all_category_names
      rw [hgen2]
      simp

theorem foldl_classify_expected (bugs : List Bug) :
    ∀ pre : List Bug,
      bugs.foldl classify_step (expected_categories pre) = expected_categories (pre ++ bugs) := by
  induction bugs with
  | nil => intro pre; simp
  | cons b rest ih =>
    intro pre
    rw [List.foldl_cons, classify_step_expected, ih (pre ++ [b])]
    congr 1
    rw [List.append_assoc]
    rfl

theorem analyze_eq_expected (bugs : List Bug) :
    analyze_root_causes_categories bugs = expected_categories bugs := by
  have h0 : initial_categories = expected_categories [] := by
    unfold initial_categories expected_categories all_category_names general_needed
    simp [category_names]
  unfold analyze_root_causes_categories
  rw [h0, foldl_classify_expected bugs [], List.nil_append]

/-- C4: the classifier's categories mapping equals the spec-side grouping
of the bugs by their winning category (so every bug lands in exactly the
list of its winning category and in no other); the winning category's key
occurs exactly once among the category keys; a bug matching no keyword in
any category (all scores zero, which is exactly when the positive-score
list is empty) goes to the synthetic General Issues category with
confidence 0.5 and empty matched_keywords; and a positive winning choice
(n, v) is a category score that is maximal among all eight scores, with
every category declared before n scoring strictly below v — i.e. ties are
broken in favour of the category declared first. -/
theorem claim_C4_exclusive_assignment (bugs : List Bug) (b : Bug) (hb : b ∈ bugs) :
    analyze_root_causes_categories bugs = expected_categories bugs
    ∧ (analyze_root_causes_categories bugs).countP
        (fun p => p.1 == (assignment_of b).1) = 1
    ∧ (bug_category_choice b = none →
        assignment_of b = ("General Issues",
          { bug_id := b.id, ado_id := b.ado_id, title := b.title,
            confidence := 0.5, matched_keywords := [] }))
    ∧ (bug_category_choice b = none ↔ ∀ p ∈ category_scores b, p.2 = 0)
    ∧ (∀ n v, bug_category_choice b = some (n, v) →
        ((n, v) ∈ category_scores b ∧ 0 < v
          ∧ (∀ p ∈ category_scores b, p.2 ≤ v)
          ∧ ∃ l1 l2, category_scores b = l1 ++ (n, v) :: l2 ∧ ∀ p ∈ l1, p.2 < v)) := by
  refine ⟨analyze_eq_expected bugs, ?_, ?_, bug_category_choice_none,
    fun n v h => bug_category_choice_some h⟩
  · rw [analyze_eq_expected bugs]
    unfold expected_categories
    rw [List.countP_map]
    have hcomp : ((fun p : String × List CategoryAssignment =>
          p.1 == (assignment_of b).1) ∘
        (fun n => (n, (bugs.filter (fun b2 => (assignment_of b2).1 == n)).map
            (fun b2 => (assignment_of b2).2))))
        = (fun m : String => m == (assignment_of b).1) := rfl
    rw [hcomp]
    have hcnt : (all_category_names bugs).countP (fun m => m == (assignment_of b).1)
        = (all_category_names bugs).count ((assignment_of b).1) := rfl
    rw [hcnt]
    apply List.count_eq_one_of_mem (all_category_names_nodup bugs)
    cases hc : bug_category_choice b with
    | some nv =>
      obtain ⟨n, v⟩ := nv
      unfold all_category_names
      exact List.mem_append.mpr (Or.inl
        (by rw [assignment_name_of_some hc]; exact choice_name_mem hc))
    | none =>
      have hgen : general_needed bugs = true :=
        List.any_eq_true.mpr ⟨b, hb, by rw [hc]; rfl⟩
      unfold all_category_names
      rw [hgen, assignment_name_of_none hc]
      exact List.mem_append.mpr (Or.inr (by simp))
  · intro hc
    unfold assignment_of
    rw [hc]

/-- Witness for C4 at a one-bug list whose text hits System Stability
keywords. -/
theorem claim_C4_witness :
    c4_bug ∈ [c4_bug] ∧
    (analyze_root_causes_categories [c4_bug] = expected_categories [c4_bug]
    ∧ (analyze_root_causes_categories [c4_bug]).countP
        (fun p => p.1 == (assignment_of c4_bug).1) = 1
    ∧ (bug_category_choice c4_bug = none →
        assignment_of c4_bug = ("General Issues",
          { bug_id := c4_bug.id, ado_id := c4_bug.ado_id, title := c4_bug.title,
            confidence := 0.5, matched_keywords := [] }))
    ∧ (bug_category_choice c4_bug = none ↔ ∀ p ∈ category_scores c4_bug, p.2 = 0)
    ∧ (∀ n v, bug_category_choice c4_bug = some (n, v) →
        ((n, v) ∈ category_scores c4_bug ∧ 0 < v
          ∧ (∀ p ∈ category_scores c4_bug, p.2 ≤ v)
          ∧ ∃ l1 l2, category_scores c4_bug = l1 ++ (n, v) :: l2 ∧ ∀ p ∈ l1, p.2 < v))) :=
  ⟨by decide, claim_C4_exclusive_assignment [c4_bug] c4_bug (by decide)⟩

/-! ## C6: the exact-duplicate scenario and the endpoint banding -/

theorem bucket_self (query_words : List String) (query_text bug_text : String)
    (hne : query_words ≠ []) (hnd : query_words.Nodup) :
    (calculate_similarity_bucket query_words query_words query_text bug_text).1 = 0.95
    ∧ (calculate_similarity_bucket query_words query_words query_text bug_text).2.1
        = "Nearly Identical" := by
  have hn : ¬ (query_words.length = 0) := by simpa [List.length_eq_zero] using hne
  have hdedup : query_words.dedup = query_words := List.dedup_eq_self.mpr hnd
  have hfilter : query_words.filter (fun w => query_words.contains w) = query_words := by
    apply List.filter_eq_self.mpr
    intro w hw
    simpa using hw
  unfold calculate_similarity_bucket
  dsimp only
  rw [if_neg hn, hdedup, hfilter]
  have hone : ((query_words.length : ℚ) / (query_words.length : ℚ)) = 1 :=
    div_self (by exact_mod_cast hn)
  rw [hone, if_pos (by norm_num : (0.9:ℚ) ≤ 1)]
  exact ⟨rfl, rfl⟩

/-- C6 (counterexample): the claim asserts that a query identical to the
candidate's combined title+description always yields exact_ratio 1.0 and
score 95 / green / exact; but exact_ratio divides the count of distinct
matched words by the token count with duplicates, so for the spec's own
example doubled into the combined text (identical title and description
"login fails with timeout") the ratio is 4/8, the bucket is 0.65 Quite
Similar, the stored score 65, and the banding orange/moderate. -/
theorem claim_C6_counterexample :
    c6_query = combined_bug_text c6_bug
    ∧ (bucket_of c6_query c6_bug).1 = 0.65
    ∧ ¬ ((bucket_of c6_query c6_bug).1 = 0.95)
    ∧ ((keyword_based_duplicate_detection c6_query [c6_bug] 0 10).map
        (fun r => (r.similarity_score, match_banding r.similarity_score)))
      = [(65, ("orange", "moderate"))] := by
  refine ⟨rfl, by decide, by decide, by decide⟩

/-- C6 (amended): when the query text is identical to the candidate's
combined title+description and the query's word tokens are pairwise
distinct, the bucketed-lexical strategy computes exact_ratio 1.0, giving
bucket (0.95, Nearly Identical), stored score 95, and banding
green/exact; and the banding applied over the 0-100 stored score is
uniformly: at least 95 green/exact, at least 85 yellow/high, below 85
orange/moderate, whatever strategy produced the score. -/
theorem claim_C6_exact_duplicate (bug : Bug) (query_text : String)
    (hq : query_text = combined_bug_text bug)
    (hne : pySplit (query_cleaned_of query_text) ≠ [])
    (hnd : (pySplit (query_cleaned_of query_text)).Nodup) :
    (bucket_of query_text bug).1 = 0.95
    ∧ (bucket_of query_text bug).2.1 = "Nearly Identical"
    ∧ (keyword_record query_text bug).similarity_score = 95
    ∧ match_banding ((keyword_record query_text bug).similarity_score) = ("green", "exact")
    ∧ (∀ s : ℚ, (95 ≤ s → match_banding s = ("green", "exact"))
        ∧ (85 ≤ s → s < 95 → match_banding s = ("yellow", "high"))
        ∧ (s < 85 → match_banding s = ("orange", "moderate"))) := by
  subst hq
  have hbw : bug_cleaned_of bug = query_cleaned_of (combined_bug_text bug) := rfl
  have hb := bucket_self (pySplit (query_cleaned_of (combined_bug_text bug)))
    (query_cleaned_of (combined_bug_text bug)) (bug_cleaned_of bug) hne hnd
  have h1 : (bucket_of (combined_bug_text bug) bug).1 = 0.95 := by
    unfold bucket_of
    rw [hbw]
    exact hb.1
  have h2 : (bucket_of (combined_bug_text bug) bug).2.1 = "Nearly Identical" := by
    unfold bucket_of
    rw [hbw]
    exact hb.2
  have h3 : (keyword_record (combined_bug_text bug) bug).similarity_score = 95 := by
    have : (keyword_record (combined_bug_text bug) bug).similarity_score
        = pyRound 1 ((bucket_of (combined_bug_text bug) bug).1 * 100) := rfl
    rw [this, h1]
    decide
  refine ⟨h1, h2, h3, ?_, ?_⟩
  · rw [h3]
    decide
  · intro s
    refine ⟨?_, ?_, ?_⟩
    · intro h95
      unfold match_banding
      rw [if_pos h95]
    · intro h85 h95
      unfold match_banding
      rw [if_neg (by linarith), if_pos h85]
    · intro h85
      unfold match_banding
      rw [if_neg (by linarith), if_neg (by linarith)]

/-- Witness for C6 at the spec's own example bug (title Login fails with
timeout, empty description) whose combined text has four distinct words. -/
theorem claim_C6_witness :
    ("Login fails with timeout " : String) = combined_bug_text c6w_bug
    ∧ pySplit (query_cleaned_of "Login fails with timeout ") ≠ []
    ∧ (pySplit (query_cleaned_of "Login fails with timeout ")).Nodup
    ∧ ((bucket_of "Login fails with timeout " c6w_bug).1 = 0.95
      ∧ (bucket_of "Login fails with timeout " c6w_bug).2.1 = "Nearly Identical"
      ∧ (keyword_record "Login fails with timeout " c6w_bug).similarity_score = 95
      ∧ match_banding ((keyword_record "Login fails with timeout " c6w_bug).similarity_score)
          = ("green", "exact")
      ∧ (∀ s : ℚ, (95 ≤ s → match_banding s = ("green", "exact"))
          ∧ (85 ≤ s → s < 95 → match_banding s = ("yellow", "high"))
          ∧ (s < 85 → match_banding s = ("orange", "moderate")))) :=
  ⟨by decide, by decide, by decide,
   claim_C6_exact_duplicate c6w_bug "Login fails with timeout " (by decide)
     (by decide) (by decide)⟩

/-- C7: when the remote answer contains no regex match for a JSON array
anywhere in its free-text body, or the extracted fragment fails to parse,
the remote duplicate-detection path returns the empty result list (the
parse failure is swallowed, never raised to the caller). -/
theorem claim_C7_malformed_remote_response (jsonParse : String → Option (List RemoteDup))
    (answer : String) (existing_bugs : List Bug)
    (h : ∀ frag, extractJsonArray answer = some frag → jsonParse frag = none) :
    internal_find_duplicate_bugs jsonParse answer existing_bugs = [] := by
  unfold internal_find_duplicate_bugs
  cases hx : extractJsonArray answer with
  | none => simp [hx]
  | some frag => simp [hx, h frag hx]

/-- Witness for C7 at a prose-only answer with a parser that always
fails. -/
theorem claim_C7_witness :
    extractJsonArray c7_answer = none
    ∧ (∀ frag, extractJsonArray c7_answer = some frag →
        (fun _ => (none : Option (List RemoteDup))) frag = none)
    ∧ internal_find_duplicate_bugs (fun _ => none) c7_answer [c3_bug] = [] :=
  ⟨by decide, fun frag _ => rfl,
   claim_C7_malformed_remote_response (fun _ => none) c7_answer [c3_bug]
     (fun frag _ => rfl)⟩
